import Mathlib

/-!
# Verification of `src/ui/timeline.rs` (alltz timeline widget)

Shallow embedding of the timeline widget renderer.  `chrono::DateTime<Utc>`
is modelled as seconds since the Unix epoch (`Int`); `chrono::Duration`
values are second counts.  The `f64` ratio arithmetic inside
`time_to_position` is modelled exactly over the rationals (round half away
from zero, then the saturating `as u16` cast); all observable properties
proved below (monotonicity, clamping, the exact midpoint value) hold for
the exact-rational semantics and for IEEE double arithmetic alike, because
every operand in the claims is exactly representable or saturated.
External collaborators (`crate::time::TimeZone`, `crate::config`,
`ratatui`) are modelled as records of abstract capabilities, following the
spec's description of the consumed interfaces.
-/

set_option autoImplicit false

namespace Alltz

/-- `chrono::Duration::hours(n)` as a second count. -/
def Duration.hours (n : Int) : Int := n * 3600

/-- `chrono::Duration::minutes(n)` as a second count. -/
def Duration.minutes (n : Int) : Int := n * 60

/-- `ratatui::style::Color`, restricted to the constructors the widget uses
plus an opaque constructor for theme-supplied colors. -/
inductive Color where
  | DarkGray
  | Green
  | Yellow
  | White
  | Reset
  | Custom (n : Nat)
  deriving DecidableEq

/-- Activity category produced by `TimeDisplayConfig::get_time_activity`
(external enum from `crate::config`, opaque to this file). -/
inductive Activity where
  | Work
  | Awake
  | Night
  | Other (n : Nat)
  deriving DecidableEq

/-- `crate::app::TimeFormat`. -/
inductive TimeFormat where
  | TwentyFourHour
  | TwelveHour
  deriving DecidableEq

/-- `crate::app::TimezoneDisplayMode`. -/
inductive TimezoneDisplayMode where
  | Short
  | Full
  deriving DecidableEq

/-- Modelled from the spec: the color-theme capability (`crate::config::ColorTheme`
is not under `src/`); the widget only calls these three getters. -/
structure ColorTheme where
  get_selected_border_color : Color
  get_current_time_color : Color
  get_timeline_position_color : Color

/-- Modelled from the spec: the activity-classification capability
(`crate::config::TimeDisplayConfig` is not under `src/`); work-hour bounds
plus the three classification functions the widget calls. -/
structure TimeDisplayConfig where
  work_hours_start : Nat
  work_hours_end : Nat
  get_time_activity : Nat → Activity
  get_activity_char : Activity → Char
  get_activity_color : Activity → ColorTheme → Color

/-- Modelled from the spec: the timezone capability (`crate::time::TimeZone`
is not under `src/`).  `offsetAt t` is `offset().fix().local_minus_utc()`
of the local datetime at UTC instant `t`; `from_local` is
`tz.from_local_datetime(..).single()` on naive local seconds. -/
structure TimeZone where
  offsetAt : Int → Int
  from_local : Int → Option Int
  display_name : String
  offset_string : String
  get_full_display_name : String

/-- `crate::time::TimeZone::convert_time`: the local wall-clock reading
(naive local seconds) of a UTC instant. -/
def TimeZone.convert_time (tz : TimeZone) (t : Int) : Int := t + tz.offsetAt t

/-- The `.hour()` accessor of a zoned datetime at UTC instant `t`:
hour-of-day of the local wall-clock time, in `[0, 23]`. -/
def TimeZone.localHour (tz : TimeZone) (t : Int) : Nat :=
  (((t + tz.offsetAt t) % 86400) / 3600).toNat

/-- `DstTransition` from `timeline.rs`. -/
inductive DstTransition where
  | SpringForward
  | FallBack
  deriving DecidableEq

/-- `TimelineWidget` from `timeline.rs` (borrowed references inlined as
values; lifetimes are irrelevant to the rendered output). -/
structure TimelineWidget where
  timeline_position : Int
  current_time : Int
  timezone : TimeZone
  selected : Bool
  display_format : TimeFormat
  timezone_display_mode : TimezoneDisplayMode
  time_config : TimeDisplayConfig
  color_theme : ColorTheme
  show_date : Bool
  show_dst : Bool

namespace TimelineWidget

/-- `get_timeline_start`: 24 hours before the timeline position. -/
def get_timeline_start (w : TimelineWidget) : Int :=
  w.timeline_position - Duration.hours 24

/-- `get_timeline_end`: 24 hours after the timeline position. -/
def get_timeline_end (w : TimelineWidget) : Int :=
  w.timeline_position + Duration.hours 24

end TimelineWidget

/-- `f64::round` on an exact rational `num / den` (`den > 0`): round half
away from zero.  For `0 ≤ num` this is `⌊num/den + 1/2⌋`. -/
def roundHalfAwayFromZero (num den : Int) : Int :=
  if 0 ≤ num then (2 * num + den) / (2 * den)
  else -((2 * (-num) + den) / (2 * den))

/-- The saturating `as u16` cast applied to a rounded `f64`: negative
values clamp to `0`, values above `u16::MAX` clamp to `65535`. -/
def satCastU16 (x : Int) : Nat := min (max x 0).toNat 65535

namespace TimelineWidget

/-- `time_to_position`: map an instant to a grid column of the 48-hour
window.  `ratio = (time - start)/(end - start)`, `position =
round(ratio * width) as u16`, clamped by `min(width.saturating_sub(1))`. -/
def time_to_position (w : TimelineWidget) (time : Int) (width : Nat) : Nat :=
  let start := w.get_timeline_start
  let e := w.get_timeline_end
  let total_duration := e - start
  let time_duration := time - start
  if total_duration = 0 then 0
  else
    min (satCastU16 (roundHalfAwayFromZero (time_duration * (width : Int)) total_duration))
      (width - 1)

/-- `get_hour_display`: glyph and color for an hour-of-day. -/
def get_hour_display (w : TimelineWidget) (hour : Nat) : Char × Color :=
  let activity := w.time_config.get_time_activity hour
  (w.time_config.get_activity_char activity,
   w.time_config.get_activity_color activity w.color_theme)

/-- `detect_dst_transition`: compare the UTC offset at `utc_time` with the
offset one hour later. -/
def detect_dst_transition (w : TimelineWidget) (utc_time : Int) : Option DstTransition :=
  let offset_before := w.timezone.offsetAt utc_time
  let one_hour_later := utc_time + Duration.hours 1
  let offset_after := w.timezone.offsetAt one_hour_later
  if offset_after > offset_before then some DstTransition.FallBack
  else if offset_after < offset_before then some DstTransition.SpringForward
  else none

/-- The `while current < end` loop body of `get_dst_transitions_in_range`,
pushing a pair at every sampled hour where `detect_dst_transition` fires
and stepping by one hour. -/
def dstScanFrom (w : TimelineWidget) (current : Int) : List (Int × DstTransition) :=
  if current < w.get_timeline_end then
    (match w.detect_dst_transition current with
     | some transition => [(current, transition)]
     | none => []) ++ dstScanFrom w (current + Duration.hours 1)
  else []
termination_by (w.get_timeline_end - current).toNat
decreasing_by
  simp_wf
  simp only [Duration.hours]
  omega

/-- `get_dst_transitions_in_range`: scan the window hour by hour starting
at the window start. -/
def get_dst_transitions_in_range (w : TimelineWidget) : List (Int × DstTransition) :=
  dstScanFrom w w.get_timeline_start

/-- The control skeleton of the same `while current < end` loop: the list
of instants the scan samples (same guard, same one-hour step). -/
def hourSamplesFrom (w : TimelineWidget) (current : Int) : List Int :=
  if current < w.get_timeline_end then
    current :: hourSamplesFrom w (current + Duration.hours 1)
  else []
termination_by (w.get_timeline_end - current).toNat
decreasing_by
  simp_wf
  simp only [Duration.hours]
  omega

/-- The instants sampled by `get_dst_transitions_in_range`. -/
def hour_samples (w : TimelineWidget) : List Int :=
  hourSamplesFrom w w.get_timeline_start

/-- `get_timeline_display`: one `(glyph, color)` per column.  The source
initialises every cell to `('░', DarkGray)` and then overwrites all
`width` cells in a loop, so the result is the per-column map; the `f64`
expression `(i as f64 / width as f64) * 48.0 * 60.0` truncated `as i64`
is modelled by exact integer division. -/
def get_timeline_display (w : TimelineWidget) (width : Nat) : List (Char × Color) :=
  (List.range width).map (fun i =>
    let minutes : Int := ((i : Int) * 48 * 60) / (width : Int)
    let time_at_position := w.get_timeline_start + Duration.minutes minutes
    w.get_hour_display (w.timezone.localHour time_at_position))

end TimelineWidget

/-- `ratatui::layout::Rect` (`u16` fields modelled as `Nat`). -/
structure Rect where
  x : Nat
  y : Nat
  width : Nat
  height : Nat
  deriving DecidableEq

/-- Modelled from ratatui: `Rect::inner(Margin { horizontal, vertical })`
returns the zero rect when the margin does not fit, else shrinks the rect
by the margin on every side. -/
def Rect.inner (r : Rect) (horizontal vertical : Nat) : Rect :=
  if r.width < 2 * horizontal ∨ r.height < 2 * vertical then ⟨0, 0, 0, 0⟩
  else ⟨r.x + horizontal, r.y + vertical,
        r.width - 2 * horizontal, r.height - 2 * vertical⟩

/-- One terminal cell: glyph plus foreground and background color. -/
structure Cell where
  char : Char
  fg : Color
  bg : Color
  deriving DecidableEq

/-- A ratatui `Style` built from `Style::default()` with optional `.fg`
and `.bg`: a patch applied to a cell. -/
structure StylePatch where
  fg : Option Color
  bg : Option Color
  deriving DecidableEq

/-- `Cell::set_char`. -/
def Cell.set_char (c : Cell) (ch : Char) : Cell := ⟨ch, c.fg, c.bg⟩

/-- `Cell::set_style`: fields present in the patch overwrite, absent
fields are kept. -/
def Cell.set_style (c : Cell) (s : StylePatch) : Cell :=
  ⟨c.char, s.fg.getD c.fg, s.bg.getD c.bg⟩

/-- The caller-supplied buffer, indexed by absolute column and row. -/
abbrev Buffer := Nat → Nat → Cell

/-- `buf[(x, y)].modify`: update the single cell at `(x, y)`. -/
def Buffer.modifyCell (b : Buffer) (x y : Nat) (f : Cell → Cell) : Buffer :=
  fun x2 y2 => if x2 = x ∧ y2 = y then f (b x y) else b x2 y2

/-- Month abbreviations for chrono's `%b`. -/
def monthAbbrev (m : Nat) : String :=
  ["Jan", "Feb", "Mar", "Apr", "May", "Jun",
   "Jul", "Aug", "Sep", "Oct", "Nov", "Dec"].getD (m - 1) ""

/-- Two-digit zero padding (`%d`, `%H`, `%M`, `%I`). -/
def pad2 (n : Nat) : String :=
  if n < 10 then "0" ++ toString n else toString n

/-- Proleptic Gregorian civil date `(year, month, day)` from days since
the Unix epoch (Hinnant's `civil_from_days`), modelling chrono's
`NaiveDate` field accessors. -/
def civilFromDays (z0 : Int) : Int × Nat × Nat :=
  let z := z0 + 719468
  let era := z / 146097
  let doe := (z - era * 146097).toNat
  let yoe := (doe - doe / 1460 + doe / 36524 - doe / 146096) / 365
  let doy := doe - (365 * yoe + yoe / 4 - yoe / 100)
  let mp := (5 * doy + 2) / 153
  let d := doy - (153 * mp + 2) / 5 + 1
  let m := if mp < 10 then mp + 3 else mp - 9
  ((yoe : Int) + era * 400 + (if m ≤ 2 then 1 else 0), m, d)

/-- chrono `%d %b` formatting of a day count, e.g. `"15 Jul"`. -/
def formatDate (days : Int) : String :=
  let c := civilFromDays days
  pad2 c.2.2 ++ " " ++ monthAbbrev c.2.1

/-- chrono `%a` weekday abbreviation of a day count (day 0 = 1970-01-01,
a Thursday). -/
def weekdayAbbrev (days : Int) : String :=
  ["Thu", "Fri", "Sat", "Sun", "Mon", "Tue", "Wed"].getD ((days % 7).toNat) ""

/-- chrono `%H:%M %a` / `%I:%M %p %a` formatting of naive local seconds. -/
def formatTime (fmt : TimeFormat) (localSec : Int) : String :=
  let secOfDay := ((localSec % 86400).toNat)
  let h := secOfDay / 3600
  let m := secOfDay % 3600 / 60
  let wd := weekdayAbbrev (localSec / 86400)
  match fmt with
  | TimeFormat.TwentyFourHour => pad2 h ++ ":" ++ pad2 m ++ " " ++ wd
  | TimeFormat.TwelveHour =>
    let h12 := if h % 12 = 0 then 12 else h % 12
    let ampm := if h < 12 then "AM" else "PM"
    pad2 h12 ++ ":" ++ pad2 m ++ " " ++ ampm ++ " " ++ wd

/-- The label start-column computation shared verbatim by the date-label
placement (timeline.rs lines 253-260) and the time-caption placement
(lines 292-299): center the label of length `len` on column `pos`, then
clamp by `min(width.saturating_sub(len))`. -/
def label_start_x (pos len width : Nat) : Nat :=
  let s := if len / 2 ≤ pos then pos - len / 2 else 0
  min s (width - len)

/-- The per-character write loop shared by the date-label and caption
rendering: write `chars` starting at column `inner.x + startX` on row
`y`, skipping columns at or past `inner.x + inner.width`. -/
def writeLabel (inner : Rect) (y startX : Nat) (chars : List Char)
    (st : StylePatch) (b : Buffer) : Buffer :=
  chars.enum.foldl (fun buf ich =>
    let x := inner.x + startX + ich.1
    if x < inner.x + inner.width then
      buf.modifyCell x y (fun c => (c.set_char ich.2).set_style st)
    else buf) b

namespace TimelineWidget

/-- Modelled from ratatui: `Block::default().borders(ALL).title(title)
.style(border_style).render(area, buf)` — applies the block style to the
whole area, then draws the border glyphs on the perimeter and the title
over the top edge. -/
def blockPass (w : TimelineWidget) (area : Rect) (b : Buffer) : Buffer :=
  let border_style : StylePatch :=
    if w.selected then ⟨some w.color_theme.get_selected_border_color, none⟩
    else ⟨none, none⟩
  let title := match w.timezone_display_mode with
    | TimezoneDisplayMode.Short =>
        w.timezone.display_name ++ " " ++ w.timezone.offset_string
    | TimezoneDisplayMode.Full => w.timezone.get_full_display_name
  fun x y =>
    if area.x ≤ x ∧ x < area.x + area.width ∧ area.y ≤ y ∧ y < area.y + area.height then
      let cell := (b x y).set_style border_style
      if y = area.y ∧ area.x + 1 ≤ x ∧ x < area.x + area.width - 1 ∧
          x - (area.x + 1) < title.length then
        cell.set_char (title.toList.getD (x - (area.x + 1)) ' ')
      else if y = area.y ∧ x = area.x then cell.set_char '┌'
      else if y = area.y ∧ x = area.x + area.width - 1 then cell.set_char '┐'
      else if y = area.y + area.height - 1 ∧ x = area.x then cell.set_char '└'
      else if y = area.y + area.height - 1 ∧ x = area.x + area.width - 1 then
        cell.set_char '┘'
      else if y = area.y ∨ y = area.y + area.height - 1 then cell.set_char '─'
      else if x = area.x ∨ x = area.x + area.width - 1 then cell.set_char '│'
      else cell
    else b x y

/-- The background loop: write the `get_timeline_display` glyphs on the
timeline row (`inner.y`), stopping at `inner.width` columns. -/
def backgroundPass (w : TimelineWidget) (inner : Rect) (b : Buffer) : Buffer :=
  (w.get_timeline_display inner.width).enum.foldl (fun buf ichc =>
    if ichc.1 < inner.width then
      buf.modifyCell (inner.x + ichc.1) inner.y
        (fun c => (c.set_char ichc.2.1).set_style ⟨some ichc.2.2, none⟩)
    else buf) b

/-- The now-marker write: `'│'` at `time_to_position(current_time, width)`
when that column is inside the row. -/
def nowMarkerPass (w : TimelineWidget) (inner : Rect) (b : Buffer) : Buffer :=
  let now_pos := w.time_to_position w.current_time inner.width
  if now_pos < inner.width then
    b.modifyCell (inner.x + now_pos) inner.y
      (fun c => (c.set_char '│').set_style ⟨some w.color_theme.get_current_time_color, none⟩)
  else b

/-- The scrub-marker write: `'┃'` at
`time_to_position(timeline_position, width)` when that column is inside
the row and differs from the now-marker column. -/
def scrubMarkerPass (w : TimelineWidget) (inner : Rect) (b : Buffer) : Buffer :=
  let now_pos := w.time_to_position w.current_time inner.width
  let timeline_pos := w.time_to_position w.timeline_position inner.width
  if timeline_pos < inner.width ∧ timeline_pos ≠ now_pos then
    b.modifyCell (inner.x + timeline_pos) inner.y
      (fun c => (c.set_char '┃').set_style
        ⟨some w.color_theme.get_timeline_position_color, none⟩)
  else b

/-- The DST overlay: when `show_dst`, draw `'⇈'`/`'⇊'` at each detected
transition's column. -/
def dstPass (w : TimelineWidget) (inner : Rect) (b : Buffer) : Buffer :=
  if w.show_dst then
    w.get_dst_transitions_in_range.foldl (fun buf ttr =>
      let dst_pos := w.time_to_position ttr.1 inner.width
      if dst_pos < inner.width then
        let sym : Char × Color := match ttr.2 with
          | DstTransition.SpringForward => ('⇈', Color.Green)
          | DstTransition.FallBack => ('⇊', Color.Yellow)
        buf.modifyCell (inner.x + dst_pos) inner.y
          (fun c => (c.set_char sym.1).set_style ⟨some sym.2, none⟩)
      else buf) b
  else b

/-- One iteration body of the date loop: place the `"%d %b"` label for
`current_date` (a local calendar day) at the workday-midpoint column,
skipping the day when `and_hms_opt` or `.single()` fails or the anchor
column is off-track. -/
def dateLabelFor (w : TimelineWidget) (inner : Rect) (work_middle_hour : Nat)
    (current_date : Int) (b : Buffer) : Buffer :=
  match (if work_middle_hour < 24 then
           some (current_date * 86400 + (work_middle_hour : Int) * 3600)
         else none) with
  | none => b
  | some work_middle_local =>
    match w.timezone.from_local work_middle_local with
    | none => b
    | some work_middle_utc =>
      let date_pos := w.time_to_position work_middle_utc inner.width
      if date_pos < inner.width then
        let date_str := formatDate current_date
        let date_start_x := label_start_x date_pos date_str.length inner.width
        writeLabel inner inner.y date_start_x date_str.toList
          ⟨some Color.White, some Color.DarkGray⟩ b
      else b

/-- The `while current_date <= local_end.date_naive()` day loop. -/
def dateLoop (w : TimelineWidget) (inner : Rect) (work_middle_hour : Nat)
    (current_date end_date : Int) (b : Buffer) : Buffer :=
  if current_date ≤ end_date then
    dateLoop w inner work_middle_hour (current_date + 1) end_date
      (dateLabelFor w inner work_middle_hour current_date b)
  else b
termination_by (end_date + 1 - current_date).toNat
decreasing_by
  simp_wf
  omega

/-- The date overlay: when `show_date`, walk the local calendar days of
the window, anchoring each label at the middle of work hours. -/
def datePass (w : TimelineWidget) (inner : Rect) (b : Buffer) : Buffer :=
  if w.show_date then
    let work_middle_hour :=
      (w.time_config.work_hours_start + w.time_config.work_hours_end) / 2
    let local_start := w.timezone.convert_time w.get_timeline_start
    let local_end := w.timezone.convert_time w.get_timeline_end
    dateLoop w inner work_middle_hour (local_start / 86400) (local_end / 86400) b
  else b

/-- The caption row: when the inner height exceeds 1, write the formatted
local time of `timeline_position` on row `inner.y + 1`, centered under
the scrub column (chars only, no style). -/
def captionPass (w : TimelineWidget) (inner : Rect) (b : Buffer) : Buffer :=
  if 1 < inner.height then
    let zone_time := w.timezone.convert_time w.timeline_position
    let time_str := formatTime w.display_format zone_time
    let time_y := inner.y + 1
    let timeline_pos := w.time_to_position w.timeline_position inner.width
    let time_start_x := label_start_x timeline_pos time_str.length inner.width
    writeLabel inner time_y time_start_x time_str.toList ⟨none, none⟩ b
  else b

/-- `Widget::render` for `TimelineWidget`: early return when the inner
rectangle is narrower than 2 columns, else the fixed sequence of paint
passes in source order. -/
def render (w : TimelineWidget) (area : Rect) (buf : Buffer) : Buffer :=
  let inner := area.inner 1 1
  if inner.width < 2 then buf
  else
    let b1 := w.blockPass area buf
    let b2 := w.backgroundPass inner b1
    let b3 := w.nowMarkerPass inner b2
    let b4 := w.scrubMarkerPass inner b3
    let b5 := w.dstPass inner b4
    let b6 := w.datePass inner b5
    w.captionPass inner b6

end TimelineWidget

/-! ## Concrete fixtures used by witnesses -/

/-- A fixed-offset (UTC) timezone capability. -/
def sampleTimeZone : TimeZone :=
  ⟨fun _ => 0, fun t => some t, "UTC", "+00:00", "UTC"⟩

/-- A concrete activity configuration. -/
def sampleConfig : TimeDisplayConfig :=
  ⟨8, 18, fun _ => Activity.Work, fun _ => '▓', fun _ _ => Color.White⟩

/-- A concrete color theme. -/
def sampleTheme : ColorTheme := ⟨Color.Yellow, Color.White, Color.Green⟩

/-- A concrete widget over a fixed-offset zone, scrub at the current
time, both feature overlays off. -/
def sampleWidget : TimelineWidget :=
  ⟨86400, 86400, sampleTimeZone, false, TimeFormat.TwentyFourHour,
   TimezoneDisplayMode.Short, sampleConfig, sampleTheme, false, false⟩

/-- A timezone whose UTC offset drops from `+1h` to `0` at instant 1800:
a spring-forward transition inside the sample window. -/
def dstTimeZone : TimeZone :=
  ⟨fun t => if t < 1800 then 3600 else 0, fun t => some t, "X", "+01:00", "X"⟩

/-- A concrete widget over `dstTimeZone` with the DST overlay on. -/
def dstWidget : TimelineWidget :=
  ⟨86400, 86400, dstTimeZone, false, TimeFormat.TwentyFourHour,
   TimezoneDisplayMode.Short, sampleConfig, sampleTheme, false, true⟩

/-- An all-blank buffer. -/
def emptyBuffer : Buffer := fun _ _ => ⟨' ', Color.Reset, Color.Reset⟩

/-! ## Lemmas about `time_to_position` -/

/-- The mapping window always spans exactly 48 hours. -/
theorem TimelineWidget.window_total (w : TimelineWidget) :
    w.get_timeline_end - w.get_timeline_start = 172800 := by
  unfold TimelineWidget.get_timeline_end TimelineWidget.get_timeline_start Duration.hours
  omega

/-- Closed form of `time_to_position`: the degenerate zero-duration guard
never fires because the window is fixed at 48 hours. -/
theorem TimelineWidget.time_to_position_eq (w : TimelineWidget) (t : Int) (W : Nat) :
    w.time_to_position t W =
      min (satCastU16 (roundHalfAwayFromZero ((t - w.get_timeline_start) * (W : Int)) 172800))
        (W - 1) := by
  unfold TimelineWidget.time_to_position
  simp only [w.window_total]
  norm_num

/-- Rounding half away from zero is monotone (48-hour denominator). -/
theorem roundHAFZ_mono_172800 {n1 n2 : Int} (h : n1 ≤ n2) :
    roundHalfAwayFromZero n1 172800 ≤ roundHalfAwayFromZero n2 172800 := by
  unfold roundHalfAwayFromZero
  split_ifs <;> omega

/-- The saturating `u16` cast is monotone. -/
theorem satCastU16_mono {x y : Int} (h : x ≤ y) : satCastU16 x ≤ satCastU16 y := by
  unfold satCastU16
  omega

/-- A non-positive numerator rounds to a non-positive column. -/
theorem roundHAFZ_nonpos_172800 {n : Int} (h : n ≤ 0) :
    roundHalfAwayFromZero n 172800 ≤ 0 := by
  unfold roundHalfAwayFromZero
  split_ifs <;> omega

/-- A numerator of at least `W` windows rounds to at least column `W`. -/
theorem roundHAFZ_ge_172800 {n : Int} {W : Nat} (h : 172800 * (W : Int) ≤ n) :
    (W : Int) ≤ roundHalfAwayFromZero n 172800 := by
  unfold roundHalfAwayFromZero
  split_ifs <;> omega

/-- `time_to_position` never exceeds `width - 1`. -/
theorem TimelineWidget.ttp_le_width_sub_one (w : TimelineWidget) (t : Int) (W : Nat) :
    w.time_to_position t W ≤ W - 1 := by
  rw [w.time_to_position_eq]
  exact Nat.min_le_right _ _

/-- `time_to_position` lands strictly inside a non-empty row. -/
theorem TimelineWidget.ttp_lt_width (w : TimelineWidget) (t : Int) (W : Nat) (hW : 1 ≤ W) :
    w.time_to_position t W < W := by
  have h := w.ttp_le_width_sub_one t W
  omega

/-- `time_to_position` is monotone non-decreasing in the instant. -/
theorem TimelineWidget.ttp_mono (w : TimelineWidget) {t1 t2 : Int} (W : Nat) (h : t1 ≤ t2) :
    w.time_to_position t1 W ≤ w.time_to_position t2 W := by
  rw [w.time_to_position_eq, w.time_to_position_eq]
  have hm : (t1 - w.get_timeline_start) * (W : Int) ≤ (t2 - w.get_timeline_start) * (W : Int) :=
    mul_le_mul_of_nonneg_right (by omega) (Int.natCast_nonneg W)
  exact min_le_min (satCastU16_mono (roundHAFZ_mono_172800 hm)) le_rfl

/-- Instants at or before the window start map to column 0. -/
theorem TimelineWidget.ttp_at_or_before_start (w : TimelineWidget) {t : Int} (W : Nat)
    (h : t ≤ w.get_timeline_start) : w.time_to_position t W = 0 := by
  rw [w.time_to_position_eq]
  have hm : (t - w.get_timeline_start) * (W : Int) ≤ 0 := by
    have h0 : (t - w.get_timeline_start) * (W : Int) ≤ 0 * (W : Int) :=
      mul_le_mul_of_nonneg_right (by omega) (Int.natCast_nonneg W)
    simpa using h0
  have h2 := roundHAFZ_nonpos_172800 hm
  unfold satCastU16
  omega

/-- Instants at or after the window end map to column `width - 1`. -/
theorem TimelineWidget.ttp_at_or_after_end (w : TimelineWidget) {t : Int} (W : Nat)
    (hW1 : 1 ≤ W) (hW2 : W ≤ 65535) (h : w.get_timeline_end ≤ t) :
    w.time_to_position t W = W - 1 := by
  rw [w.time_to_position_eq]
  have hst := w.window_total
  have hm : 172800 * (W : Int) ≤ (t - w.get_timeline_start) * (W : Int) :=
    mul_le_mul_of_nonneg_right (by omega) (Int.natCast_nonneg W)
  have h2 := roundHAFZ_ge_172800 hm
  unfold satCastU16
  omega

/-- The anchor instant maps to the midpoint of a 100-column row. -/
theorem TimelineWidget.ttp_anchor_100 (w : TimelineWidget) :
    w.time_to_position w.timeline_position 100 = 50 := by
  rw [w.time_to_position_eq]
  have h : w.timeline_position - w.get_timeline_start = 86400 := by
    unfold TimelineWidget.get_timeline_start Duration.hours
    omega
  rw [h]
  decide

/-! ## Claim theorems C1 - C3 -/

/-- C1: for every `u16` width `1 ≤ W ≤ 65535` and instants `t1 ≤ t2`,
`time_to_position` is monotone non-decreasing in its time argument and
lands in `[0, W-1]`; instants at or before the window start map to
column 0 and instants at or after the window end map to column `W-1`. -/
theorem time_to_position_monotone_saturating (w : TimelineWidget) (W : Nat) (t1 t2 : Int)
    (hW1 : 1 ≤ W) (hW2 : W ≤ 65535) :
    (t1 ≤ t2 → w.time_to_position t1 W ≤ w.time_to_position t2 W) ∧
    w.time_to_position t1 W ≤ W - 1 ∧
    (t1 ≤ w.get_timeline_start → w.time_to_position t1 W = 0) ∧
    (w.get_timeline_end ≤ t1 → w.time_to_position t1 W = W - 1) :=
  ⟨fun h => w.ttp_mono W h, w.ttp_le_width_sub_one t1 W,
   fun h => w.ttp_at_or_before_start W h, fun h => w.ttp_at_or_after_end W hW1 hW2 h⟩

/-- Witness for C1: concrete width 100 and instants 0 ≤ 3600 on a
concrete widget. -/
theorem time_to_position_monotone_saturating_witness :
    sampleWidget.time_to_position 0 100 ≤ sampleWidget.time_to_position 3600 100 :=
  (time_to_position_monotone_saturating sampleWidget 100 0 3600 (by decide) (by decide)).1
    (by decide)

/-- C2: the rendering window bounds are exactly `timeline_position - 24h`
and `timeline_position + 24h`, and replacing `current_time` by any value
leaves both bounds unchanged. -/
theorem timeline_window_fixed (w : TimelineWidget) (c : Int) :
    w.get_timeline_start = w.timeline_position - Duration.hours 24 ∧
    w.get_timeline_end = w.timeline_position + Duration.hours 24 ∧
    ({ w with current_time := c } : TimelineWidget).get_timeline_start =
      w.get_timeline_start ∧
    ({ w with current_time := c } : TimelineWidget).get_timeline_end =
      w.get_timeline_end :=
  ⟨rfl, rfl, rfl, rfl⟩

/-- C3: `detect_dst_transition t` is `some FallBack` iff the UTC offset at
`t + 1h` is strictly greater than at `t`, `some SpringForward` iff it is
strictly smaller, and `none` iff the two offsets are equal. -/
theorem detect_dst_transition_characterisation (w : TimelineWidget) (t : Int) :
    (w.detect_dst_transition t = some DstTransition.FallBack ↔
       w.timezone.offsetAt t < w.timezone.offsetAt (t + Duration.hours 1)) ∧
    (w.detect_dst_transition t = some DstTransition.SpringForward ↔
       w.timezone.offsetAt (t + Duration.hours 1) < w.timezone.offsetAt t) ∧
    (w.detect_dst_transition t = none ↔
       w.timezone.offsetAt (t + Duration.hours 1) = w.timezone.offsetAt t) := by
  unfold TimelineWidget.detect_dst_transition
  dsimp only
  split_ifs with h1 h2 <;>
    refine ⟨?_, ?_, ?_⟩ <;> simp_all <;> omega

/-! ## Lemmas about the hour scan -/

/-- The window end sits exactly 48 one-hour steps after the window start. -/
theorem TimelineWidget.window_align (w : TimelineWidget) :
    w.get_timeline_end = w.get_timeline_start + ((48 : Nat) : Int) * 3600 := by
  unfold TimelineWidget.get_timeline_end TimelineWidget.get_timeline_start Duration.hours
  push_cast
  omega

/-- When the loop entry sits `k` hour-steps before the window end, the
sampled instants are exactly `c + i*3600` for `i < k`. -/
theorem TimelineWidget.hourSamplesFrom_eq (w : TimelineWidget) :
    ∀ (k : Nat) (c : Int), w.get_timeline_end = c + (k : Int) * 3600 →
      w.hourSamplesFrom c = (List.range k).map (fun i : Nat => c + (i : Int) * 3600) := by
  intro k
  induction k with
  | zero =>
    intro c hc
    rw [TimelineWidget.hourSamplesFrom, if_neg (by push_cast at hc; omega)]
    simp
  | succ k ih =>
    intro c hc
    rw [TimelineWidget.hourSamplesFrom, if_pos (by push_cast at hc; omega)]
    have h2 : w.get_timeline_end = (c + Duration.hours 1) + (k : Int) * 3600 := by
      unfold Duration.hours
      push_cast at hc ⊢
      omega
    rw [ih _ h2, List.range_succ_eq_map, List.map_cons, List.map_map]
    refine List.cons_eq_cons.mpr ⟨by norm_num, List.map_congr_left ?_⟩
    intro i _
    simp only [Function.comp_apply, Duration.hours]
    push_cast
    ring

/-- The scan emits at most one entry per sampled hour. -/
theorem TimelineWidget.dstScanFrom_len_le (w : TimelineWidget) :
    ∀ (k : Nat) (c : Int), w.get_timeline_end = c + (k : Int) * 3600 →
      (w.dstScanFrom c).length ≤ k := by
  intro k
  induction k with
  | zero =>
    intro c hc
    rw [TimelineWidget.dstScanFrom, if_neg (by push_cast at hc; omega)]
    simp
  | succ k ih =>
    intro c hc
    rw [TimelineWidget.dstScanFrom, if_pos (by push_cast at hc; omega)]
    have h2 : w.get_timeline_end = (c + Duration.hours 1) + (k : Int) * 3600 := by
      unfold Duration.hours
      push_cast at hc ⊢
      omega
    have hrec := ih _ h2
    cases hdet : w.detect_dst_transition c <;> simp [hdet] <;> omega

/-- Every emitted pair's instant lies in `[c, window_end)`. -/
theorem TimelineWidget.dstScanFrom_mem (w : TimelineWidget) :
    ∀ (k : Nat) (c t : Int) (tr : DstTransition),
      w.get_timeline_end = c + (k : Int) * 3600 →
      (t, tr) ∈ w.dstScanFrom c → c ≤ t ∧ t < w.get_timeline_end := by
  intro k
  induction k with
  | zero =>
    intro c t tr hc h
    rw [TimelineWidget.dstScanFrom, if_neg (by push_cast at hc; omega)] at h
    simp at h
  | succ k ih =>
    intro c t tr hc h
    have hlt : c < w.get_timeline_end := by push_cast at hc; omega
    rw [TimelineWidget.dstScanFrom, if_pos hlt, List.mem_append] at h
    rcases h with h | h
    · cases hdet : w.detect_dst_transition c <;> rw [hdet] at h <;> simp at h
      exact ⟨le_of_eq h.1.symm, by omega⟩
    · have h2 : w.get_timeline_end = (c + Duration.hours 1) + (k : Int) * 3600 := by
        unfold Duration.hours
        push_cast at hc ⊢
        omega
      have hrec := ih _ t tr h2 h
      unfold Duration.hours at hrec
      exact ⟨by omega, hrec.2⟩

/-- Every emitted pair's instant is one of the sampled instants. -/
theorem TimelineWidget.dstScanFrom_sub_samples (w : TimelineWidget) :
    ∀ (k : Nat) (c t : Int) (tr : DstTransition),
      w.get_timeline_end = c + (k : Int) * 3600 →
      (t, tr) ∈ w.dstScanFrom c → t ∈ w.hourSamplesFrom c := by
  intro k
  induction k with
  | zero =>
    intro c t tr hc h
    rw [TimelineWidget.dstScanFrom, if_neg (by push_cast at hc; omega)] at h
    simp at h
  | succ k ih =>
    intro c t tr hc h
    have hlt : c < w.get_timeline_end := by push_cast at hc; omega
    rw [TimelineWidget.dstScanFrom, if_pos hlt, List.mem_append] at h
    rw [TimelineWidget.hourSamplesFrom, if_pos hlt]
    have h2 : w.get_timeline_end = (c + Duration.hours 1) + (k : Int) * 3600 := by
      unfold Duration.hours
      push_cast at hc ⊢
      omega
    rcases h with h | h
    · cases hdet : w.detect_dst_transition c <;> rw [hdet] at h <;> simp at h
      simp [h.1]
    · exact List.mem_cons_of_mem _ (ih _ t tr h2 h)

/-- A scan over a zone where detection never fires yields nothing. -/
theorem TimelineWidget.dstScanFrom_nil (w : TimelineWidget)
    (hnone : ∀ u, w.detect_dst_transition u = none) :
    ∀ (k : Nat) (c : Int), w.get_timeline_end = c + (k : Int) * 3600 →
      w.dstScanFrom c = [] := by
  intro k
  induction k with
  | zero =>
    intro c hc
    rw [TimelineWidget.dstScanFrom, if_neg (by push_cast at hc; omega)]
  | succ k ih =>
    intro c hc
    rw [TimelineWidget.dstScanFrom, if_pos (by push_cast at hc; omega), hnone c]
    have h2 : w.get_timeline_end = (c + Duration.hours 1) + (k : Int) * 3600 := by
      unfold Duration.hours
      push_cast at hc ⊢
      omega
    rw [ih _ h2]
    rfl

/-! ## Claim theorems C4 and C8 -/

/-- C4: every pair emitted by `get_dst_transitions_in_range` satisfies
`window_start ≤ instant < window_end` and carries one of the two
transition kinds; a timezone with a constant UTC offset yields the empty
sequence. -/
theorem dst_transitions_in_window (w : TimelineWidget) :
    (∀ t tr, (t, tr) ∈ w.get_dst_transitions_in_range →
       (w.get_timeline_start ≤ t ∧ t < w.get_timeline_end) ∧
       (tr = DstTransition.SpringForward ∨ tr = DstTransition.FallBack)) ∧
    (∀ k : Int, (∀ u, w.timezone.offsetAt u = k) →
       w.get_dst_transitions_in_range = []) := by
  unfold TimelineWidget.get_dst_transitions_in_range
  constructor
  · intro t tr h
    refine ⟨w.dstScanFrom_mem 48 _ t tr w.window_align h, ?_⟩
    cases tr
    · exact Or.inl rfl
    · exact Or.inr rfl
  · intro k hk
    have hnone : ∀ u, w.detect_dst_transition u = none := by
      intro u
      unfold TimelineWidget.detect_dst_transition
      dsimp only
      rw [hk, hk]
      simp
    exact w.dstScanFrom_nil hnone 48 _ w.window_align

/-- The sample widget's window starts at instant 0. -/
theorem dstWidget_start : dstWidget.get_timeline_start = 0 := by decide

/-- The scan over `dstWidget` opens with the spring-forward pair at
instant 0. -/
theorem dstWidget_scan_head :
    ((0 : Int), DstTransition.SpringForward) ∈ dstWidget.get_dst_transitions_in_range := by
  unfold TimelineWidget.get_dst_transitions_in_range
  rw [dstWidget_start, TimelineWidget.dstScanFrom,
    if_pos (by decide : (0 : Int) < dstWidget.get_timeline_end),
    (by decide : dstWidget.detect_dst_transition 0 = some DstTransition.SpringForward)]
  exact List.mem_append_left _ (List.mem_singleton.mpr rfl)

/-- Witness for C4: the emitted spring-forward pair of `dstWidget` lies in
the window, and the fixed-offset `sampleWidget` emits nothing. -/
theorem dst_transitions_in_window_witness :
    ((dstWidget.get_timeline_start ≤ 0 ∧ (0 : Int) < dstWidget.get_timeline_end) ∧
     (DstTransition.SpringForward = DstTransition.SpringForward ∨
      DstTransition.SpringForward = DstTransition.FallBack)) ∧
    sampleWidget.get_dst_transitions_in_range = [] :=
  ⟨(dst_transitions_in_window dstWidget).1 0 DstTransition.SpringForward dstWidget_scan_head,
   (dst_transitions_in_window sampleWidget).2 0 (fun _ => rfl)⟩

/-- C8 counterexample: the hour scan samples 48 instants, not 49 — the
loop guard `current < window_end` excludes the window end, and
`window_end - window_start` is exactly 48 hour-steps. -/
theorem hour_samples_count_ne_49 :
    TimelineWidget.hour_samples sampleWidget ≠ [] ∧
    (TimelineWidget.hour_samples sampleWidget).length = 48 ∧
    (TimelineWidget.hour_samples sampleWidget).length ≠ 49 := by
  have h := sampleWidget.hourSamplesFrom_eq 48 sampleWidget.get_timeline_start
    sampleWidget.window_align
  unfold TimelineWidget.hour_samples
  rw [h]
  simp

/-- C8 (amended): the scan samples exactly 48 hourly instants — `start +
i*3600` for `i < 48`, stepping one hour while `current < window_end`, so
the window end itself is never sampled — every emitted transition's
instant is one of those samples, and at most one entry arises per sampled
hour (hence at most 48 entries). -/
theorem hour_scan_structure (w : TimelineWidget) :
    w.hour_samples =
      (List.range 48).map (fun i : Nat => w.get_timeline_start + (i : Int) * 3600) ∧
    w.hour_samples.length = 48 ∧
    (∀ t tr, (t, tr) ∈ w.get_dst_transitions_in_range → t ∈ w.hour_samples) ∧
    w.get_dst_transitions_in_range.length ≤ 48 := by
  have heq := w.hourSamplesFrom_eq 48 w.get_timeline_start w.window_align
  unfold TimelineWidget.hour_samples TimelineWidget.get_dst_transitions_in_range
  refine ⟨heq, by rw [heq]; simp, ?_, ?_⟩
  · intro t tr h
    exact w.dstScanFrom_sub_samples 48 _ t tr w.window_align h
  · exact w.dstScanFrom_len_le 48 _ w.window_align

/-! ## Buffer and pass lemmas -/

/-- A cell update leaves every other cell unchanged. -/
theorem Buffer.modifyCell_ne (b : Buffer) (x y : Nat) (f : Cell → Cell) {x2 y2 : Nat}
    (h : ¬(x2 = x ∧ y2 = y)) : b.modifyCell x y f x2 y2 = b x2 y2 := by
  unfold Buffer.modifyCell
  rw [if_neg h]

/-- A cell update applies `f` at the addressed cell. -/
theorem Buffer.modifyCell_self (b : Buffer) (x y : Nat) (f : Cell → Cell) :
    b.modifyCell x y f x y = f (b x y) := by
  unfold Buffer.modifyCell
  rw [if_pos ⟨rfl, rfl⟩]

/-- The label write loop touches only row `y`. -/
theorem writeLabel_other_row (inner : Rect) (y startX : Nat) (chars : List Char)
    (st : StylePatch) (b : Buffer) (x y2 : Nat) (h : y2 ≠ y) :
    writeLabel inner y startX chars st b x y2 = b x y2 := by
  unfold writeLabel
  generalize chars.enum = l
  induction l generalizing b with
  | nil => rfl
  | cons a l ih =>
    rw [List.foldl_cons, ih]
    split_ifs
    · exact Buffer.modifyCell_ne _ _ _ _ (fun hc => h hc.2)
    · rfl

/-- The caption pass never touches the timeline row. -/
theorem TimelineWidget.captionPass_row0 (w : TimelineWidget) (inner : Rect) (b : Buffer)
    (x : Nat) : w.captionPass inner b x inner.y = b x inner.y := by
  unfold TimelineWidget.captionPass
  dsimp only
  split_ifs
  · exact writeLabel_other_row _ _ _ _ _ _ _ _ (by omega)
  · rfl

/-- The DST overlay is skipped when `show_dst` is off. -/
theorem TimelineWidget.dstPass_off (w : TimelineWidget) (inner : Rect) (b : Buffer)
    (h : w.show_dst = false) : w.dstPass inner b = b := by
  unfold TimelineWidget.dstPass
  rw [h]
  simp

/-- The date overlay is skipped when `show_date` is off. -/
theorem TimelineWidget.datePass_off (w : TimelineWidget) (inner : Rect) (b : Buffer)
    (h : w.show_date = false) : w.datePass inner b = b := by
  unfold TimelineWidget.datePass
  rw [h]
  simp

/-- The scrub-marker pass is the identity whenever the scrub column
coincides with the now column: the now marker wins ties. -/
theorem TimelineWidget.scrubMarkerPass_eq_of_same (w : TimelineWidget) (inner : Rect)
    (b : Buffer)
    (h : w.time_to_position w.timeline_position inner.width =
         w.time_to_position w.current_time inner.width) :
    w.scrubMarkerPass inner b = b := by
  unfold TimelineWidget.scrubMarkerPass
  dsimp only
  rw [if_neg (fun hc => hc.2 h)]

/-- On a non-empty row, the now-marker pass writes `'│'` (with the theme's
now color) at the now column. -/
theorem TimelineWidget.nowMarkerPass_char (w : TimelineWidget) (inner : Rect) (b : Buffer)
    (hW : 1 ≤ inner.width) :
    (w.nowMarkerPass inner b)
        (inner.x + w.time_to_position w.current_time inner.width) inner.y =
      ((b (inner.x + w.time_to_position w.current_time inner.width) inner.y).set_char
          '│').set_style ⟨some w.color_theme.get_current_time_color, none⟩ := by
  unfold TimelineWidget.nowMarkerPass
  rw [if_pos (w.ttp_lt_width _ _ hW), Buffer.modifyCell_self]

/-! ## Claim theorems C5 - C7, C9, C10 -/

/-- C5: with `current_time = timeline_position` and inner width 100, the
now and scrub markers both map to column 50, the rendered cell at that
column of the timeline row holds the now glyph `'│'`, and in general the
scrub pass draws nothing whenever its column equals the now column. -/
theorem scrub_collapses_onto_now (w : TimelineWidget) (area : Rect) (buf : Buffer)
    (heq : w.current_time = w.timeline_position)
    (hdst : w.show_dst = false) (hdate : w.show_date = false)
    (hW : (area.inner 1 1).width = 100) :
    w.time_to_position w.timeline_position 100 = 50 ∧
    w.time_to_position w.current_time 100 = 50 ∧
    ((w.render area buf) ((area.inner 1 1).x + 50) (area.inner 1 1).y).char = '│' ∧
    (∀ (w2 : TimelineWidget) (inner2 : Rect) (b2 : Buffer),
       w2.time_to_position w2.timeline_position inner2.width =
         w2.time_to_position w2.current_time inner2.width →
       w2.scrubMarkerPass inner2 b2 = b2) := by
  have h50 : w.time_to_position w.timeline_position 100 = 50 := w.ttp_anchor_100
  have h50c : w.time_to_position w.current_time 100 = 50 := by
    rw [heq]
    exact w.ttp_anchor_100
  refine ⟨h50, h50c, ?_, fun w2 inner2 b2 h => w2.scrubMarkerPass_eq_of_same inner2 b2 h⟩
  unfold TimelineWidget.render
  dsimp only
  rw [if_neg (by omega)]
  rw [w.captionPass_row0, w.datePass_off _ _ hdate, w.dstPass_off _ _ hdst,
    w.scrubMarkerPass_eq_of_same _ _ (by rw [heq])]
  have hpos : w.time_to_position w.current_time (area.inner 1 1).width = 50 := by
    rw [hW]
    exact h50c
  rw [← hpos, w.nowMarkerPass_char _ _ (by omega)]
  rfl

/-- Witness for C5: a 102x4 area (inner width 100) on a concrete widget
whose scrub instant equals the current instant. -/
theorem scrub_collapses_onto_now_witness :
    sampleWidget.time_to_position sampleWidget.timeline_position 100 = 50 ∧
    ((sampleWidget.render ⟨0, 0, 102, 4⟩ emptyBuffer)
        ((Rect.inner ⟨0, 0, 102, 4⟩ 1 1).x + 50) (Rect.inner ⟨0, 0, 102, 4⟩ 1 1).y).char =
      '│' ∧
    sampleWidget.scrubMarkerPass ⟨1, 1, 100, 2⟩ emptyBuffer = emptyBuffer :=
  ⟨(scrub_collapses_onto_now sampleWidget ⟨0, 0, 102, 4⟩ emptyBuffer rfl rfl rfl
      (by decide)).1,
   (scrub_collapses_onto_now sampleWidget ⟨0, 0, 102, 4⟩ emptyBuffer rfl rfl rfl
      (by decide)).2.2.1,
   (scrub_collapses_onto_now sampleWidget ⟨0, 0, 102, 4⟩ emptyBuffer rfl rfl rfl
      (by decide)).2.2.2 sampleWidget ⟨1, 1, 100, 2⟩ emptyBuffer (by decide)⟩

/-- C6 counterexample: at anchor column 4, label length 7, track width 5
(`L > W`, `c ≥ L/2`), the claim's unclamped start `c - L/2 = 1` differs
from the computed start: the `min (width.saturating_sub(len))` clamp still
applies and drives the start to 0. -/
theorem label_start_x_cx :
    (7 : Nat) / 2 ≤ 4 ∧ label_start_x 4 7 5 ≠ 4 - 7 / 2 ∧ label_start_x 4 7 5 = 0 := by
  decide

/-- C6 (amended): the start column is `c - L/2` when `c ≥ L/2` and 0
otherwise, clamped so that `start ≤ W - L`; when `L > W` the clamp is
still applied — `W.saturating_sub(L) = 0` forces the start to column 0 —
and the write loop truncates the label at the right edge. -/
theorem label_start_x_spec (c L W : Nat) :
    (L ≤ W → L / 2 ≤ c → label_start_x c L W = min (c - L / 2) (W - L)) ∧
    (c < L / 2 → label_start_x c L W = 0) ∧
    (W < L → label_start_x c L W = 0) := by
  unfold label_start_x
  refine ⟨fun h1 h2 => ?_, fun h => ?_, fun h => ?_⟩ <;> dsimp only <;> split_ifs <;> omega

/-- Witness for C6 (amended) at concrete anchors, lengths and widths. -/
theorem label_start_x_spec_witness :
    label_start_x 10 6 100 = min (10 - 6 / 2) (100 - 6) ∧
    label_start_x 1 6 100 = 0 ∧
    label_start_x 4 7 5 = 0 :=
  ⟨(label_start_x_spec 10 6 100).1 (by decide) (by decide),
   (label_start_x_spec 1 6 100).2.1 (by decide),
   (label_start_x_spec 4 7 5).2.2 (by decide)⟩

/-- C7: when `L ≤ W` the placed label's start column (a `Nat`, hence
never negative) satisfies `start + L ≤ W`, so with `L ≥ 1` its last
character sits at a column at most `W - 1`: the label never extends past
the right edge. -/
theorem label_fits_track (c L W : Nat) (hL : L ≤ W) :
    label_start_x c L W + L ≤ W ∧
    (1 ≤ L → label_start_x c L W + (L - 1) ≤ W - 1) := by
  unfold label_start_x
  dsimp only
  split_ifs <;> refine ⟨?_, fun h => ?_⟩ <;> omega

/-- Witness for C7: the 6-character date label anchored at column 50 of a
100-column track. -/
theorem label_fits_track_witness :
    label_start_x 50 6 100 + 6 ≤ 100 ∧
    (1 ≤ 6 → label_start_x 50 6 100 + (6 - 1) ≤ 100 - 1) :=
  label_fits_track 50 6 100 (by decide)

/-- C9: when the inner rectangle (the area shrunk by a 1-cell margin on
all sides) is narrower than two columns, `render` returns before drawing
anything: the caller's buffer — border region included — is returned
unchanged. -/
theorem render_noop_when_narrow (w : TimelineWidget) (area : Rect) (buf : Buffer)
    (h : (area.inner 1 1).width < 2) : w.render area buf = buf := by
  unfold TimelineWidget.render
  dsimp only
  rw [if_pos h]

/-- Witness for C9: a 3x3 area, whose inner width is 1. -/
theorem render_noop_when_narrow_witness :
    sampleWidget.render ⟨0, 0, 3, 3⟩ emptyBuffer = emptyBuffer :=
  render_noop_when_narrow sampleWidget ⟨0, 0, 3, 3⟩ emptyBuffer (by decide)

/-- C10: for `u16` inner widths `2 ≤ W ≤ 65535` the guard
`now_pos < width` always holds, so the now-marker pass always paints
`'│'` on the timeline row; when `current_time` lies at or outside the
window bounds the marker sits at the clamped edge column 0 or `W - 1`. -/
theorem now_marker_always_drawn (w : TimelineWidget) (inner : Rect) (b : Buffer)
    (hW1 : 2 ≤ inner.width) (hW2 : inner.width ≤ 65535) :
    w.time_to_position w.current_time inner.width < inner.width ∧
    ((w.nowMarkerPass inner b)
        (inner.x + w.time_to_position w.current_time inner.width) inner.y).char = '│' ∧
    (w.current_time ≤ w.get_timeline_start →
       w.time_to_position w.current_time inner.width = 0) ∧
    (w.get_timeline_end ≤ w.current_time →
       w.time_to_position w.current_time inner.width = inner.width - 1) := by
  refine ⟨w.ttp_lt_width _ _ (by omega), ?_,
    fun h => w.ttp_at_or_before_start _ h,
    fun h => w.ttp_at_or_after_end _ (by omega) hW2 h⟩
  rw [w.nowMarkerPass_char inner b (by omega)]
  rfl

/-- Witness for C10 at inner width 100 on a concrete widget and buffer. -/
theorem now_marker_always_drawn_witness :
    sampleWidget.time_to_position sampleWidget.current_time 100 < 100 ∧
    ((sampleWidget.nowMarkerPass ⟨1, 1, 100, 2⟩ emptyBuffer)
        (1 + sampleWidget.time_to_position sampleWidget.current_time 100) 1).char = '│' ∧
    (sampleWidget.current_time ≤ sampleWidget.get_timeline_start →
       sampleWidget.time_to_position sampleWidget.current_time 100 = 0) ∧
    (sampleWidget.get_timeline_end ≤ sampleWidget.current_time →
       sampleWidget.time_to_position sampleWidget.current_time 100 = 99) :=
  now_marker_always_drawn sampleWidget ⟨1, 1, 100, 2⟩ emptyBuffer (by decide) (by decide)

end Alltz
